import Mathlib

/-!
Verification development for the BOQU IOT-485-EC4A smart logger
(`src/smart_logger.cpp`).

The program is a single-threaded Modbus-RTU client. We shallowly embed
its pure computations and its I/O control flow:

* 32-bit IEEE-754 floats are represented by their 32-bit *bit patterns*
  (`Nat < 2^32`). The register codec (`modbus_get_float_abcd` /
  `modbus_set_float_abcd`) only moves bits, never interprets them
  numerically, so bit-exactness of the codec is exactly equality of
  patterns; the representation is a bijection between patterns and
  float values (each NaN payload counted separately).
* `double` arithmetic in the compensation engine is modelled over `ℚ`.
  Every branch threshold (5, 10, 15, 25, 30) and every value the claims
  evaluate at is exactly representable, and the reference-point
  computation `raw / (1 + k * (25 - 25))` is exact in IEEE double as
  well (each intermediate is exact), so the `ℚ` model agrees with the
  C++ `double` semantics on everything stated here.
* Modbus I/O (`modbus_write_register`, `modbus_write_registers`,
  `modbus_read_registers`, connect/close/free) is modelled by oracles
  giving each call's outcome, and the functions built on them return
  their C++ return value together with a trace of the I/O and logging
  events they perform, in program order.
-/

namespace SmartLogger

/-! ### Calibration constants (`smart_logger.cpp` lines 19-23) -/

def CALIBRATION_REG_MODE : Nat := 13
def CALIBRATION_REG_COEFF : Nat := 28
/-- Bit pattern of the IEEE-754 single `12880.0f`
(`CALIBRATION_COEFF_VALUE` in the source): sign 0, exponent 140,
mantissa 4800512, i.e. `0x46494000`. -/
def CALIBRATION_COEFF_BITS : Nat := 0x46494000
def CAL_MODE_1_VALUE : Nat := 2
def CAL_MODE_2_VALUE : Nat := 3

/-! ### Float register codec -/

/-- `modbus_get_float_abcd` (lines 109-122): combine the high word and
the low word into one 32-bit pattern `(src[0] << 16) | src[1]` and
reinterpret it as a float.  In the bit-pattern representation the
reinterpretation is the identity, so the function returns the pattern. -/
def modbus_get_float_abcd (w0 w1 : Nat) : Nat :=
  (w0 <<< 16) ||| w1

/-- Modelled from the spec: `modbus_set_float_abcd` is libmodbus library
code, not part of this repository.  Spec §4.2: `encode(value) ->
(word0, word1)`: reinterpret the 32-bit IEEE-754 bit pattern of the
value; `word0` = high 16 bits, `word1` = low 16 bits. -/
def modbus_set_float_abcd (bits : Nat) : Nat × Nat :=
  (bits >>> 16, bits % 2 ^ 16)

/-! ### Compensation engine (`ℚ` model of `double`) -/

/-- `get_dynamic_k` (lines 35-49): ordered if-chain over temperature. -/
def get_dynamic_k (temp : ℚ) : ℚ :=
  if temp ≤ 5 then 0.0180
  else if temp ≤ 10 then 0.0184
  else if temp ≤ 15 then 0.0190
  else if temp ≤ 25 then 0.0190
  else if temp ≤ 30 then 0.0192
  else 0.0194

/-- `calculate_smart_ec` (lines 54-58):
`raw_ec / (1.0 + k * (temp - 25.0))`, with **no** guard on the
denominator — the division is performed unconditionally. -/
def calculate_smart_ec (raw_ec temp : ℚ) : ℚ :=
  raw_ec / (1 + get_dynamic_k temp * (temp - 25))

/-- The piecewise-constant lookup as the spec words it: ascending
thresholds paired with coefficients, evaluated in order, first match
wins, with a default beyond the last threshold. -/
def dynamicK_table : List (ℚ × ℚ) :=
  [(5, 0.0180), (10, 0.0184), (15, 0.0190), (25, 0.0190), (30, 0.0192)]

/-- First-match-wins evaluation of a threshold table. -/
def lookupK : List (ℚ × ℚ) → ℚ → ℚ
  | [], _ => 0.0194
  | (th, k) :: rest, t => if t ≤ th then k else lookupK rest t

def dynamicK_lookup (t : ℚ) : ℚ := lookupK dynamicK_table t

/-! ### Verified writes and the calibration sequence

The Modbus transport is modelled by an oracle of call outcomes.
`closeEnough b₀ b₁` abstracts the C++ float tolerance test
`fabs(decode(readback) - value) < 0.001f` on the two bit patterns; its
outcome only selects which log line is printed and never influences a
return value, which is exactly what claims C3/C4/C10 are about. -/

structure Transport where
  /-- `modbus_write_register addr value != -1` -/
  writeRegisterOk : Nat → Nat → Bool
  /-- `modbus_write_registers addr words != -1` -/
  writeRegistersOk : Nat → List Nat → Bool
  /-- `modbus_read_registers addr count`: `none` on failure (`-1`),
  otherwise the register words read. -/
  readRegisters : Nat → Nat → Option (List Nat)
  /-- abstracts `fabs(decoded_read_back - value) < 0.001f` -/
  closeEnough : Nat → Nat → Bool

/-- Observable I/O and logging events, in program order. -/
inductive LogEv where
  | writeSingle (addr value : Nat)
  | writeMulti (addr : Nat) (words : List Nat)
  | readBack (addr count : Nat)
  | verifyOk
  | warnMismatch
  | warnReadBackFailed
  | errorWriteFailed
  deriving DecidableEq

/-- `write_integer_register` (lines 146-178): raw write; on raw-write
failure log an error and return `false`; otherwise read back one word,
log `[OK]` on exact equality, `[WARNING]` on mismatch or on read-back
failure, and return `true` in all three of those cases. -/
def write_integer_register (t : Transport) (addr value : Nat) :
    Bool × List LogEv :=
  match t.writeRegisterOk addr value with
  | false => (false, [.writeSingle addr value, .errorWriteFailed])
  | true =>
    match t.readRegisters addr 1 with
    | some vs =>
        if vs.getD 0 0 = value then
          (true, [.writeSingle addr value, .readBack addr 1, .verifyOk])
        else
          (true, [.writeSingle addr value, .readBack addr 1, .warnMismatch])
    | none =>
        (true, [.writeSingle addr value, .readBack addr 1, .warnReadBackFailed])

/-- The two register words produced by `modbus_set_float_abcd` for a
value — the `reg_data` array of the source. -/
def encWords (bits : Nat) : List Nat :=
  [(modbus_set_float_abcd bits).1, (modbus_set_float_abcd bits).2]

/-- `write_float_register` (lines 186-228): encode the value with
`modbus_set_float_abcd`, write the two words; on raw-write failure log
an error and return `false`; otherwise (after the 100 ms settle delay)
read back both words, decode them with `modbus_get_float_abcd`, log
`[OK]` or a `[WARNING]`, and return `true` in all those cases. -/
def write_float_register (t : Transport) (addr valueBits : Nat) :
    Bool × List LogEv :=
  match t.writeRegistersOk addr (encWords valueBits) with
  | false => (false, [.writeMulti addr (encWords valueBits), .errorWriteFailed])
  | true =>
    match t.readRegisters addr 2 with
    | some vs =>
        if t.closeEnough (modbus_get_float_abcd (vs.getD 0 0) (vs.getD 1 0))
            valueBits then
          (true, [.writeMulti addr (encWords valueBits), .readBack addr 2,
            .verifyOk])
        else
          (true, [.writeMulti addr (encWords valueBits), .readBack addr 2,
            .warnMismatch])
    | none =>
        (true, [.writeMulti addr (encWords valueBits), .readBack addr 2,
          .warnReadBackFailed])

/-- `CalibrationMode` enum (lines 25-30). -/
inductive CalibrationMode where
  | CAL_MODE_NONE
  | CAL_MODE_1
  | CAL_MODE_2
  | CAL_MODE_3
  deriving DecidableEq

/-- `execute_calibration` (lines 233-287), keeping the `success`
data flow of the conditional chain (console banners elided; they
perform no register I/O). -/
def execute_calibration (t : Transport) (mode : CalibrationMode) :
    Bool × List LogEv :=
  match mode with
  | .CAL_MODE_NONE => (true, [])
  | .CAL_MODE_1 =>
      write_integer_register t CALIBRATION_REG_MODE CAL_MODE_1_VALUE
  | .CAL_MODE_2 =>
      let r1 := write_float_register t CALIBRATION_REG_COEFF CALIBRATION_COEFF_BITS
      if r1.1 then
        let r2 := write_integer_register t CALIBRATION_REG_MODE CAL_MODE_2_VALUE
        (r2.1, r1.2 ++ r2.2)
      else
        (false, r1.2)
  | .CAL_MODE_3 =>
      write_integer_register t 16 190

/-- The two words of the encoded calibration coefficient, as written to
registers 28-29 in Mode 2. -/
def coeffWords : List Nat := encWords CALIBRATION_COEFF_BITS

/-- Transport on which every raw write fails. -/
def tDead : Transport :=
  ⟨fun _ _ => false, fun _ _ => false, fun _ _ => none, fun _ _ => true⟩

/-- Transport on which writes succeed but the read-back always differs
(reads return zero words, tolerance test fails). -/
def tMismatch : Transport :=
  ⟨fun _ _ => true, fun _ _ => true, fun _ _ => some [0, 0], fun _ _ => false⟩

/-- Transport on which writes succeed but every read fails. -/
def tNoRead : Transport :=
  ⟨fun _ _ => true, fun _ _ => true, fun _ _ => none, fun _ _ => true⟩

/-- Transport on which writes succeed and the read-back of register 13
returns the expected value 2. -/
def tGoodRead : Transport :=
  ⟨fun _ _ => true, fun _ _ => true, fun _ _ => some [2, 0], fun _ _ => true⟩

/-- Transport on which all multi-register writes succeed but the write
to the mode register (13) fails. -/
def tPartial : Transport :=
  ⟨fun a _ => decide (a ≠ CALIBRATION_REG_MODE), fun _ _ => true,
   fun _ _ => none, fun _ _ => true⟩

/-- Is the event a multi-register (float) write? -/
def isWriteMulti : LogEv → Bool
  | .writeMulti _ _ => true
  | _ => false

/-! ### Port discovery (`find_sensor_port`, lines 63-104) -/

/-- The candidate list built at lines 64-75: `/dev/ttyS0` … `/dev/ttyS20`
first, then for each `i` in `0 … 4` the pair `/dev/ttyUSBi`,
`/dev/ttyACMi` (the two USB naming schemes are interleaved per index by
the loop at lines 72-75). -/
def port_candidates : List String :=
  ((List.range 21).map (fun i => "/dev/ttyS" ++ toString i))
  ++ ((List.range 5).flatMap (fun i =>
        ["/dev/ttyUSB" ++ toString i, "/dev/ttyACM" ++ toString i]))

/-- The scan order asserted by the spec read block-by-block: the first
scheme's full numeric range, then the second scheme's full range, then
the third's. -/
def claimed_scan_order : List String :=
  ((List.range 21).map (fun i => "/dev/ttyS" ++ toString i))
  ++ ((List.range 5).map (fun i => "/dev/ttyUSB" ++ toString i))
  ++ ((List.range 5).map (fun i => "/dev/ttyACM" ++ toString i))

/-- Outcomes of the three libmodbus calls made per probe. -/
structure ProbeOracle where
  /-- `modbus_new_rtu(port, 9600, N, 8, 1) != NULL` -/
  newRtuOk : String → Bool
  /-- `modbus_connect != -1` -/
  connectOk : String → Bool
  /-- handshake `modbus_read_registers(60, 2) != -1` -/
  handshakeOk : String → Bool

/-- Connection-lifecycle events, in program order. -/
inductive ConnEv where
  | newRtu (port : String) (ok : Bool)
  | connectTry (port : String) (ok : Bool)
  | handshake (port : String) (ok : Bool)
  | closeConn (port : String)
  | freeCtx (port : String)
  | sessionNew (port : String) (ok : Bool)
  | sessionConnect (port : String) (ok : Bool)
  deriving DecidableEq

/-- The probe loop of `find_sensor_port` (lines 81-101) over a candidate
list, returning the connection-event trace and the found port:
`NULL` context → continue; connect failure → free, continue; handshake
failure → close, free, continue; handshake success → close, free,
return the port. -/
def probe_ports (o : ProbeOracle) : List String → List ConnEv × Option String
  | [] => ([], none)
  | p :: rest =>
    match o.newRtuOk p with
    | false =>
        let r := probe_ports o rest
        (ConnEv.newRtu p false :: r.1, r.2)
    | true =>
        match o.connectOk p with
        | false =>
            let r := probe_ports o rest
            (ConnEv.newRtu p true :: ConnEv.connectTry p false ::
              ConnEv.freeCtx p :: r.1, r.2)
        | true =>
            match o.handshakeOk p with
            | true =>
                ([ConnEv.newRtu p true, ConnEv.connectTry p true,
                  ConnEv.handshake p true, ConnEv.closeConn p,
                  ConnEv.freeCtx p], some p)
            | false =>
                let r := probe_ports o rest
                (ConnEv.newRtu p true :: ConnEv.connectTry p true ::
                  ConnEv.handshake p false :: ConnEv.closeConn p ::
                  ConnEv.freeCtx p :: r.1, r.2)

/-- `find_sensor_port` (lines 63-104): probe the candidates in order and
return the first responding port (`none` models the empty-string
not-found return). -/
def find_sensor_port (o : ProbeOracle) : Option String :=
  (probe_ports o port_candidates).2

/-- Oracle under which exactly `/dev/ttyUSB1` and `/dev/ttyACM0`
answer the handshake. -/
def usb1_acm0_oracle : ProbeOracle :=
  ⟨fun _ => true,
   fun p => p == "/dev/ttyUSB1" || p == "/dev/ttyACM0",
   fun p => p == "/dev/ttyUSB1" || p == "/dev/ttyACM0"⟩

/-- Oracle under which every candidate responds. -/
def all_ok_oracle : ProbeOracle :=
  ⟨fun _ => true, fun _ => true, fun _ => true⟩

/-- Net effect of an event on the number of open connections: a
successful connect opens one, a close closes one. -/
def connDelta : ConnEv → Int
  | .connectTry _ true => 1
  | .sessionConnect _ true => 1
  | .closeConn _ => -1
  | _ => 0

/-- Number of connections left open by a whole trace. -/
def traceOpenSum (evs : List ConnEv) : Int :=
  (evs.map connDelta).sum

/-- Starting from `c` open connections, does the running count stay
within `[0, 1]` at every step of the trace? -/
def openWithin : Int → List ConnEv → Bool
  | _, [] => true
  | c, e :: rest =>
      decide (0 ≤ c + connDelta e ∧ c + connDelta e ≤ 1)
        && openWithin (c + connDelta e) rest

/-- `main` (lines 609-633): run discovery, and only after it returns
create and connect the session context on the found port (`b1` =
`modbus_new_rtu != NULL`, `b2` = `modbus_connect != -1`; on connect
failure the context is freed and main returns). -/
def main_session_trace (o : ProbeOracle) (b1 b2 : Bool) : List ConnEv :=
  match (probe_ports o port_candidates).2 with
  | none => (probe_ports o port_candidates).1
  | some p =>
      match b1 with
      | false => (probe_ports o port_candidates).1 ++ [ConnEv.sessionNew p false]
      | true => (probe_ports o port_candidates).1
          ++ [ConnEv.sessionNew p true, ConnEv.sessionConnect p b2]

/-! ### Sampling loop (`main`, lines 669-734) -/

/-- Outcomes of the three reads one cycle performs. -/
structure CycleReads where
  /-- `modbus_read_registers(60, 2)`: temperature pair -/
  readTemp : Option (Nat × Nat)
  /-- `modbus_read_registers(45, 2)`: raw-EC pair -/
  readRawEc : Option (Nat × Nat)
  /-- `modbus_read_registers(41, 2)`: sensor-EC pair -/
  readSensorEc : Option (Nat × Nat)

/-- The register words a fully successful cycle hands to the display
and CSV collaborators. -/
structure SampleRecord where
  tempRegs : Nat × Nat
  rawEcRegs : Nat × Nat
  sensorEcRegs : Nat × Nat
  deriving DecidableEq

/-- How a loop-body iteration ends: continue with the next cycle after
the fixed 1 s sleep (emitting a record or not), or leave the loop
terminating the process.  The embedding of the body never produces
`terminate` — the C++ body ends every path in `continue` or in the
fall-through to `sleep(1)`. -/
inductive LoopExit where
  | nextCycle (emitted : Option SampleRecord)
  | terminate (code : Int)
  deriving DecidableEq

/-- One iteration of the acquisition loop (lines 669-734): temperature
read first (failure → log, sleep, continue), then raw EC, then sensor
EC; only a cycle in which all three succeed emits its record to the
dashboard and the CSV. -/
def sampling_cycle (r : CycleReads) : LoopExit :=
  match r.readTemp with
  | none => .nextCycle none
  | some tp =>
      match r.readRawEc with
      | none => .nextCycle none
      | some ep =>
          match r.readSensorEc with
          | none => .nextCycle none
          | some sp => .nextCycle (some ⟨tp, ep, sp⟩)

/-- The records emitted by the first `n` cycles, with `reads i` the read
outcomes of cycle `i`. -/
def run_sampling (reads : Nat → CycleReads) : Nat → List SampleRecord
  | 0 => []
  | n + 1 =>
      run_sampling reads n ++
        (match sampling_cycle (reads n) with
          | .nextCycle (some rec) => [rec]
          | .nextCycle none => []
          | .terminate _ => [])

/-- Did all three reads of a cycle succeed? -/
def cycleAllOk (r : CycleReads) : Bool :=
  r.readTemp.isSome && r.readRawEc.isSome && r.readSensorEc.isSome

end SmartLogger

namespace SmartLogger

/-! ### Theorems: codec and compensation -/

/-- C1: decoding the encoded register pair is the identity on every
32-bit pattern, i.e. `decode(encode(x)) == x` bit-exactly for every
representable float `x` (non-finite and denormal patterns included,
since the statement quantifies over *all* 32-bit patterns), and the two
encoded words are genuine 16-bit register words. -/
theorem decode_encode_roundtrip (bits : Nat) (h : bits < 2 ^ 32) :
    modbus_get_float_abcd (modbus_set_float_abcd bits).1
        (modbus_set_float_abcd bits).2 = bits
    ∧ (modbus_set_float_abcd bits).1 < 2 ^ 16
    ∧ (modbus_set_float_abcd bits).2 < 2 ^ 16 := by
  refine ⟨?_, ?_, ?_⟩
  · show ((bits >>> 16) <<< 16) ||| (bits % 2 ^ 16) = bits
    apply Nat.eq_of_testBit_eq
    intro i
    simp only [Nat.testBit_lor, Nat.testBit_shiftLeft, Nat.testBit_shiftRight,
      Nat.testBit_mod_two_pow]
    rcases lt_or_ge i 16 with hi | hi
    · simp [hi, Nat.not_le.mpr hi]
    · have h16 : 16 ≤ i := hi
      simp [h16, Nat.not_lt.mpr h16, Nat.add_sub_cancel' h16]
  · show bits >>> 16 < 2 ^ 16
    have hd : bits >>> 16 = bits / 65536 := by
      rw [Nat.shiftRight_eq_div_pow]
    rw [hd]
    omega
  · show bits % 2 ^ 16 < 2 ^ 16
    have hp : (2 : Nat) ^ 16 = 65536 := by norm_num
    rw [hp]
    omega

/-- Witness for C1 at the calibration coefficient pattern
`0x46494000` (12880.0f). -/
theorem decode_encode_roundtrip_witness :
    CALIBRATION_COEFF_BITS < 2 ^ 32
    ∧ modbus_get_float_abcd (modbus_set_float_abcd CALIBRATION_COEFF_BITS).1
        (modbus_set_float_abcd CALIBRATION_COEFF_BITS).2 = CALIBRATION_COEFF_BITS :=
  ⟨by norm_num [CALIBRATION_COEFF_BITS],
   (decode_encode_roundtrip CALIBRATION_COEFF_BITS
      (by norm_num [CALIBRATION_COEFF_BITS])).1⟩

/-- C2 (evidence the guard is absent): `calculate_smart_ec` divides
unconditionally.  At `raw_ec = 12`, `temp = -31` the denominator
`1 + k·(temp - 25) = 1 + 0.0180·(-56) = -0.008` is negative, yet the
function returns the value `-1500` instead of signalling a
`DomainError`; at `temp = -275/9` the denominator is exactly `0`
(there the C++ `double` division would produce a non-finite value,
silently propagated). -/
theorem calculate_smart_ec_unguarded :
    calculate_smart_ec 12 (-31) = -1500
    ∧ 1 + get_dynamic_k (-31) * ((-31 : ℚ) - 25) < 0
    ∧ 1 + get_dynamic_k (-275 / 9) * ((-275 / 9 : ℚ) - 25) = 0 := by
  refine ⟨?_, ?_, ?_⟩ <;> norm_num [calculate_smart_ec, get_dynamic_k]

/-- C6: `get_dynamic_k` agrees with the spec's first-match-wins
threshold-table lookup everywhere, is non-decreasing in temperature,
and takes the stated values at 5, 5.01, 25 and 25.01 degrees. -/
theorem get_dynamic_k_spec :
    (∀ t : ℚ, get_dynamic_k t = dynamicK_lookup t)
    ∧ (∀ t₁ t₂ : ℚ, t₁ ≤ t₂ → get_dynamic_k t₁ ≤ get_dynamic_k t₂)
    ∧ get_dynamic_k 5 = 0.0180
    ∧ get_dynamic_k 5.01 = 0.0184
    ∧ get_dynamic_k 25 = 0.0190
    ∧ get_dynamic_k 25.01 = 0.0192 := by
  refine ⟨?_, ?_, ?_, ?_, ?_, ?_⟩
  · intro t
    simp [get_dynamic_k, dynamicK_lookup, dynamicK_table, lookupK]
  · intro t₁ t₂ h
    unfold get_dynamic_k
    split_ifs <;> linarith
  · norm_num [get_dynamic_k]
  · norm_num [get_dynamic_k]
  · norm_num [get_dynamic_k]
  · norm_num [get_dynamic_k]

/-- Witness for C6: monotonicity applied at the concrete pair 7 ≤ 20. -/
theorem get_dynamic_k_spec_witness :
    (7 : ℚ) ≤ 20 ∧ get_dynamic_k 7 ≤ get_dynamic_k 20 :=
  ⟨by norm_num, get_dynamic_k_spec.2.1 7 20 (by norm_num)⟩

/-! ### Theorems: verified writes -/

/-- Case equation: raw integer write fails. -/
theorem write_integer_register_eq_fail (t : Transport) (addr value : Nat)
    (h : t.writeRegisterOk addr value = false) :
    write_integer_register t addr value =
      (false, [.writeSingle addr value, .errorWriteFailed]) := by
  unfold write_integer_register
  rw [h]

/-- Case equation: raw integer write succeeds, verification read fails. -/
theorem write_integer_register_eq_noRead (t : Transport) (addr value : Nat)
    (hw : t.writeRegisterOk addr value = true)
    (hr : t.readRegisters addr 1 = none) :
    write_integer_register t addr value =
      (true, [.writeSingle addr value, .readBack addr 1, .warnReadBackFailed]) := by
  unfold write_integer_register
  rw [hw, hr]

/-- Case equation: raw integer write succeeds, read-back matches. -/
theorem write_integer_register_eq_verifyOk (t : Transport) (addr value : Nat)
    (vs : List Nat) (hw : t.writeRegisterOk addr value = true)
    (hr : t.readRegisters addr 1 = some vs) (hv : vs.getD 0 0 = value) :
    write_integer_register t addr value =
      (true, [.writeSingle addr value, .readBack addr 1, .verifyOk]) := by
  unfold write_integer_register
  rw [hw, hr]
  dsimp only
  rw [if_pos hv]

/-- Case equation: raw integer write succeeds, read-back differs. -/
theorem write_integer_register_eq_mismatch (t : Transport) (addr value : Nat)
    (vs : List Nat) (hw : t.writeRegisterOk addr value = true)
    (hr : t.readRegisters addr 1 = some vs) (hv : ¬ vs.getD 0 0 = value) :
    write_integer_register t addr value =
      (true, [.writeSingle addr value, .readBack addr 1, .warnMismatch]) := by
  unfold write_integer_register
  rw [hw, hr]
  dsimp only
  rw [if_neg hv]

/-- Case equation: raw float write fails. -/
theorem write_float_register_eq_fail (t : Transport) (addr bits : Nat)
    (h : t.writeRegistersOk addr (encWords bits) = false) :
    write_float_register t addr bits =
      (false, [.writeMulti addr (encWords bits), .errorWriteFailed]) := by
  unfold write_float_register
  rw [h]

/-- Case equation: raw float write succeeds, verification read fails. -/
theorem write_float_register_eq_noRead (t : Transport) (addr bits : Nat)
    (hw : t.writeRegistersOk addr (encWords bits) = true)
    (hr : t.readRegisters addr 2 = none) :
    write_float_register t addr bits =
      (true, [.writeMulti addr (encWords bits), .readBack addr 2,
        .warnReadBackFailed]) := by
  unfold write_float_register
  rw [hw, hr]

/-- Case equation: raw float write succeeds, read-back within tolerance. -/
theorem write_float_register_eq_verifyOk (t : Transport) (addr bits : Nat)
    (vs : List Nat) (hw : t.writeRegistersOk addr (encWords bits) = true)
    (hr : t.readRegisters addr 2 = some vs)
    (hc : t.closeEnough (modbus_get_float_abcd (vs.getD 0 0) (vs.getD 1 0)) bits
      = true) :
    write_float_register t addr bits =
      (true, [.writeMulti addr (encWords bits), .readBack addr 2, .verifyOk]) := by
  unfold write_float_register
  rw [hw, hr]
  dsimp only
  rw [if_pos hc]

/-- Case equation: raw float write succeeds, read-back out of tolerance. -/
theorem write_float_register_eq_mismatch (t : Transport) (addr bits : Nat)
    (vs : List Nat) (hw : t.writeRegistersOk addr (encWords bits) = true)
    (hr : t.readRegisters addr 2 = some vs)
    (hc : ¬ t.closeEnough (modbus_get_float_abcd (vs.getD 0 0) (vs.getD 1 0)) bits
      = true) :
    write_float_register t addr bits =
      (true, [.writeMulti addr (encWords bits), .readBack addr 2,
        .warnMismatch]) := by
  unfold write_float_register
  rw [hw, hr]
  dsimp only
  rw [if_neg hc]

/-- Helper: the returned `bool` of `write_integer_register` is exactly
the raw-write outcome. -/
theorem write_integer_register_fst (t : Transport) (addr value : Nat) :
    (write_integer_register t addr value).1 = t.writeRegisterOk addr value := by
  cases hw : t.writeRegisterOk addr value
  · rw [write_integer_register_eq_fail t addr value hw]
  · cases hr : t.readRegisters addr 1 with
    | none => rw [write_integer_register_eq_noRead t addr value hw hr]
    | some vs =>
        by_cases hv : vs.getD 0 0 = value
        · rw [write_integer_register_eq_verifyOk t addr value vs hw hr hv]
        · rw [write_integer_register_eq_mismatch t addr value vs hw hr hv]

/-- Helper: the returned `bool` of `write_float_register` is exactly
the raw-write outcome on the encoded word pair. -/
theorem write_float_register_fst (t : Transport) (addr bits : Nat) :
    (write_float_register t addr bits).1 =
      t.writeRegistersOk addr (encWords bits) := by
  cases hw : t.writeRegistersOk addr (encWords bits)
  · rw [write_float_register_eq_fail t addr bits hw]
  · cases hr : t.readRegisters addr 2 with
    | none => rw [write_float_register_eq_noRead t addr bits hw hr]
    | some vs =>
        by_cases hc : t.closeEnough
            (modbus_get_float_abcd (vs.getD 0 0) (vs.getD 1 0)) bits = true
        · rw [write_float_register_eq_verifyOk t addr bits vs hw hr hc]
        · rw [write_float_register_eq_mismatch t addr bits vs hw hr hc]

/-- C3: both write-and-verify helpers return `accepted = false` exactly
when the raw write fails, in which case no read-back is attempted; when
the raw write succeeds they return `true` even when the read-back
differs (exact equality for the integer helper, the 0.001 tolerance
test for the float helper), the mismatch only producing a warning log
event. -/
theorem writeAndVerify_accepted_iff_raw_write_ok
    (t : Transport) (addr value bits : Nat) :
    ((write_integer_register t addr value).1 = t.writeRegisterOk addr value)
    ∧ (t.writeRegisterOk addr value = false →
        ∀ a c, LogEv.readBack a c ∉ (write_integer_register t addr value).2)
    ∧ (t.writeRegisterOk addr value = true →
        ∀ vs, t.readRegisters addr 1 = some vs → vs.getD 0 0 ≠ value →
          (write_integer_register t addr value).1 = true
          ∧ LogEv.warnMismatch ∈ (write_integer_register t addr value).2)
    ∧ ((write_float_register t addr bits).1 =
        t.writeRegistersOk addr (encWords bits))
    ∧ (t.writeRegistersOk addr (encWords bits) = false →
        ∀ a c, LogEv.readBack a c ∉ (write_float_register t addr bits).2)
    ∧ (t.writeRegistersOk addr (encWords bits) = true →
        ∀ vs, t.readRegisters addr 2 = some vs →
          t.closeEnough (modbus_get_float_abcd (vs.getD 0 0) (vs.getD 1 0)) bits
            = false →
          (write_float_register t addr bits).1 = true
          ∧ LogEv.warnMismatch ∈ (write_float_register t addr bits).2) := by
  refine ⟨write_integer_register_fst t addr value, ?_, ?_,
    write_float_register_fst t addr bits, ?_, ?_⟩
  · intro hw a c
    rw [write_integer_register_eq_fail t addr value hw]
    simp
  · intro hw vs hr hv
    rw [write_integer_register_eq_mismatch t addr value vs hw hr hv]
    simp
  · intro hw a c
    rw [write_float_register_eq_fail t addr bits hw]
    simp
  · intro hw vs hr hc
    have hc' : ¬ t.closeEnough
        (modbus_get_float_abcd (vs.getD 0 0) (vs.getD 1 0)) bits = true := by
      rw [hc]
      simp
    rw [write_float_register_eq_mismatch t addr bits vs hw hr hc']
    simp

/-- Witness for C3 on a dead transport and a mismatching transport. -/
theorem writeAndVerify_accepted_iff_raw_write_ok_witness :
    (write_integer_register tDead 13 2).1 = false
    ∧ LogEv.readBack 13 1 ∉ (write_integer_register tDead 13 2).2
    ∧ (write_integer_register tMismatch 13 2).1 = true
    ∧ LogEv.warnMismatch ∈ (write_integer_register tMismatch 13 2).2
    ∧ (write_float_register tDead 28 CALIBRATION_COEFF_BITS).1 = false
    ∧ LogEv.readBack 28 2 ∉ (write_float_register tDead 28 CALIBRATION_COEFF_BITS).2
    ∧ (write_float_register tMismatch 28 CALIBRATION_COEFF_BITS).1 = true
    ∧ LogEv.warnMismatch ∈ (write_float_register tMismatch 28 CALIBRATION_COEFF_BITS).2 :=
  ⟨(writeAndVerify_accepted_iff_raw_write_ok tDead 13 2 0).1.trans rfl,
    (writeAndVerify_accepted_iff_raw_write_ok tDead 13 2 0).2.1 rfl 13 1,
    ((writeAndVerify_accepted_iff_raw_write_ok tMismatch 13 2 0).2.2.1 rfl
        [0, 0] rfl (by decide)).1,
    ((writeAndVerify_accepted_iff_raw_write_ok tMismatch 13 2 0).2.2.1 rfl
        [0, 0] rfl (by decide)).2,
    (writeAndVerify_accepted_iff_raw_write_ok tDead 28 0
        CALIBRATION_COEFF_BITS).2.2.2.1.trans rfl,
    (writeAndVerify_accepted_iff_raw_write_ok tDead 28 0
        CALIBRATION_COEFF_BITS).2.2.2.2.1 rfl 28 2,
    ((writeAndVerify_accepted_iff_raw_write_ok tMismatch 28 0
        CALIBRATION_COEFF_BITS).2.2.2.2.2 rfl [0, 0] rfl rfl).1,
    ((writeAndVerify_accepted_iff_raw_write_ok tMismatch 28 0
        CALIBRATION_COEFF_BITS).2.2.2.2.2 rfl [0, 0] rfl rfl).2⟩

/-- C10: when the raw write succeeds but the verification read itself
fails, both helpers still return `accepted = true` and only log a
warning; the returned value is identical to the one returned on any
other transport whose raw write succeeds (e.g. one whose verification
succeeded), so the caller cannot tell the two apart. -/
theorem writeAndVerify_readback_failure_still_accepted
    (t t' : Transport) (addr value : Nat)
    (hw : t.writeRegisterOk addr value = true)
    (hr : t.readRegisters addr 1 = none) :
    (write_integer_register t addr value).1 = true
    ∧ LogEv.warnReadBackFailed ∈ (write_integer_register t addr value).2
    ∧ LogEv.verifyOk ∉ (write_integer_register t addr value).2
    ∧ (t'.writeRegisterOk addr value = true →
        (write_integer_register t' addr value).1
          = (write_integer_register t addr value).1)
    ∧ (∀ a b, t.writeRegistersOk a (encWords b) = true →
        t.readRegisters a 2 = none →
        (write_float_register t a b).1 = true
        ∧ LogEv.warnReadBackFailed ∈ (write_float_register t a b).2) := by
  have he := write_integer_register_eq_noRead t addr value hw hr
  refine ⟨?_, ?_, ?_, ?_, ?_⟩
  · rw [he]
  · rw [he]; simp
  · rw [he]; simp
  · intro hw'
    rw [write_integer_register_fst, write_integer_register_fst, hw, hw']
  · intro a b hwf hrf
    rw [write_float_register_eq_noRead t a b hwf hrf]
    simp

/-- Witness for C10: on `tNoRead` the verification read fails, yet the
result equals the fully-verified result on `tGoodRead`. -/
theorem writeAndVerify_readback_failure_still_accepted_witness :
    (write_integer_register tNoRead 13 2).1 = true
    ∧ LogEv.warnReadBackFailed ∈ (write_integer_register tNoRead 13 2).2
    ∧ (write_integer_register tGoodRead 13 2).1
        = (write_integer_register tNoRead 13 2).1
    ∧ (write_float_register tNoRead 28 CALIBRATION_COEFF_BITS).1 = true :=
  ⟨(writeAndVerify_readback_failure_still_accepted tNoRead tGoodRead 13 2
      rfl rfl).1,
    (writeAndVerify_readback_failure_still_accepted tNoRead tGoodRead 13 2
      rfl rfl).2.1,
    (writeAndVerify_readback_failure_still_accepted tNoRead tGoodRead 13 2
      rfl rfl).2.2.2.1 rfl,
    ((writeAndVerify_readback_failure_still_accepted tNoRead tGoodRead 13 2
      rfl rfl).2.2.2.2 28 CALIBRATION_COEFF_BITS rfl rfl).1⟩

/-- C4: in Mode 2, `execute_calibration` performs the float coefficient
write first; if that raw write fails, the mode register is never
written; if it succeeds and the mode write fails, the overall result is
failure, the trace starts with the coefficient write, and exactly one
multi-register (coefficient) write ever appears in the trace — no
rollback write is issued. -/
theorem execute_calibration_mode2_short_circuit (t : Transport) :
    (t.writeRegistersOk CALIBRATION_REG_COEFF coeffWords = false →
        (execute_calibration t .CAL_MODE_2).1 = false
        ∧ ∀ a v, LogEv.writeSingle a v ∉ (execute_calibration t .CAL_MODE_2).2)
    ∧ (t.writeRegistersOk CALIBRATION_REG_COEFF coeffWords = true →
        t.writeRegisterOk CALIBRATION_REG_MODE CAL_MODE_2_VALUE = false →
        (execute_calibration t .CAL_MODE_2).1 = false
        ∧ (execute_calibration t .CAL_MODE_2).2.head?
            = some (LogEv.writeMulti CALIBRATION_REG_COEFF coeffWords)
        ∧ ((execute_calibration t .CAL_MODE_2).2.filter isWriteMulti).length
            = 1) := by
  constructor
  · intro hw
    simp only [coeffWords] at hw
    have he := write_float_register_eq_fail t CALIBRATION_REG_COEFF
      CALIBRATION_COEFF_BITS hw
    refine ⟨?_, ?_⟩
    · simp [execute_calibration, he]
    · intro a v
      simp [execute_calibration, he]
  · intro hw hm
    simp only [coeffWords] at hw
    have he2 := write_integer_register_eq_fail t CALIBRATION_REG_MODE
      CAL_MODE_2_VALUE hm
    cases hr : t.readRegisters CALIBRATION_REG_COEFF 2 with
    | none =>
        have he := write_float_register_eq_noRead t CALIBRATION_REG_COEFF
          CALIBRATION_COEFF_BITS hw hr
        refine ⟨?_, ?_, ?_⟩ <;>
          simp [execute_calibration, he, he2, coeffWords, isWriteMulti]
    | some vs =>
        by_cases hc : t.closeEnough
            (modbus_get_float_abcd (vs.getD 0 0) (vs.getD 1 0))
            CALIBRATION_COEFF_BITS = true
        · have he := write_float_register_eq_verifyOk t CALIBRATION_REG_COEFF
            CALIBRATION_COEFF_BITS vs hw hr hc
          refine ⟨?_, ?_, ?_⟩ <;>
            simp [execute_calibration, he, he2, coeffWords, isWriteMulti]
        · have he := write_float_register_eq_mismatch t CALIBRATION_REG_COEFF
            CALIBRATION_COEFF_BITS vs hw hr hc
          refine ⟨?_, ?_, ?_⟩ <;>
            simp [execute_calibration, he, he2, coeffWords, isWriteMulti]

/-- Witness for C4: coefficient write succeeds, mode write fails. -/
theorem execute_calibration_mode2_short_circuit_witness :
    ((execute_calibration tDead .CAL_MODE_2).1 = false
      ∧ LogEv.writeSingle 13 3 ∉ (execute_calibration tDead .CAL_MODE_2).2)
    ∧ ((execute_calibration tPartial .CAL_MODE_2).1 = false
      ∧ (execute_calibration tPartial .CAL_MODE_2).2.head?
          = some (LogEv.writeMulti CALIBRATION_REG_COEFF coeffWords)
      ∧ ((execute_calibration tPartial .CAL_MODE_2).2.filter isWriteMulti).length
          = 1) :=
  ⟨⟨((execute_calibration_mode2_short_circuit tDead).1 rfl).1,
    ((execute_calibration_mode2_short_circuit tDead).1 rfl).2 13 3⟩,
    (execute_calibration_mode2_short_circuit tPartial).2 rfl (by decide)⟩

/-- C9: at the 25 °C reference point the compensation is the identity:
`calculate_smart_ec 12 25 = 12`; and indeed for *any* coefficient `k`
the denominator `1 + k * (25 - 25)` is exactly 1, so the quotient is
`raw_ec` itself (every intermediate step of this computation is also
exact in IEEE double arithmetic). -/
theorem compensation_identity_at_25 :
    calculate_smart_ec 12 25 = 12
    ∧ ∀ k : ℚ, (12 : ℚ) / (1 + k * ((25 : ℚ) - 25)) = 12 := by
  constructor
  · norm_num [calculate_smart_ec, get_dynamic_k]
  · intro k
    norm_num

/-! ### Theorems: port discovery -/

/-- Helper: the port returned by the probe loop is the first candidate
on which context creation, connect and the handshake read all succeed. -/
theorem probe_ports_snd_eq_find (o : ProbeOracle) :
    ∀ l : List String,
      (probe_ports o l).2
        = l.find? (fun p => o.newRtuOk p && o.connectOk p && o.handshakeOk p)
  | [] => rfl
  | p :: rest => by
    cases h1 : o.newRtuOk p <;> cases h2 : o.connectOk p <;>
      cases h3 : o.handshakeOk p <;>
      simp [probe_ports, h1, h2, h3, List.find?,
        probe_ports_snd_eq_find o rest]

/-- Helper: the running open-connection count of a probe trace stays
within `[0, 1]`. -/
theorem probe_ports_openWithin (o : ProbeOracle) :
    ∀ l : List String, openWithin 0 (probe_ports o l).1 = true
  | [] => rfl
  | p :: rest => by
    cases h1 : o.newRtuOk p <;> cases h2 : o.connectOk p <;>
      cases h3 : o.handshakeOk p <;>
      simp [probe_ports, h1, h2, h3, openWithin, connDelta,
        probe_ports_openWithin o rest]

/-- Helper: a probe trace leaves no connection open. -/
theorem probe_ports_openSum (o : ProbeOracle) :
    ∀ l : List String, traceOpenSum (probe_ports o l).1 = 0
  | [] => rfl
  | p :: rest => by
    have ih := probe_ports_openSum o rest
    simp only [traceOpenSum] at ih
    cases h1 : o.newRtuOk p <;> cases h2 : o.connectOk p <;>
      cases h3 : o.handshakeOk p <;>
      simp [probe_ports, h1, h2, h3, traceOpenSum, connDelta, ih]

/-- Helper: discovery performs no session-connection event. -/
theorem probe_ports_no_session (o : ProbeOracle) :
    ∀ (l : List String) (p : String) (ok : Bool),
      ConnEv.sessionConnect p ok ∉ (probe_ports o l).1
  | [] => by intro p ok; simp [probe_ports]
  | q :: rest => by
    intro p ok
    cases h1 : o.newRtuOk q <;> cases h2 : o.connectOk q <;>
      cases h3 : o.handshakeOk q <;>
      simp [probe_ports, h1, h2, h3,
        probe_ports_no_session o rest p ok]

/-- Helper: when a probe succeeds, its trace ends by closing and
freeing the winning candidate's connection. -/
theorem probe_ports_winner_closed (o : ProbeOracle) :
    ∀ (l : List String) (p : String),
      (probe_ports o l).2 = some p →
      ∃ pre, (probe_ports o l).1
        = pre ++ [ConnEv.closeConn p, ConnEv.freeCtx p]
  | [] => by intro p h; simp [probe_ports] at h
  | q :: rest => by
    intro p h
    cases h1 : o.newRtuOk q
    · rw [show (probe_ports o (q :: rest)).2 = (probe_ports o rest).2 by
        simp [probe_ports, h1]] at h
      obtain ⟨pre, hpre⟩ := probe_ports_winner_closed o rest p h
      exact ⟨ConnEv.newRtu q false :: pre, by simp [probe_ports, h1, hpre]⟩
    · cases h2 : o.connectOk q
      · rw [show (probe_ports o (q :: rest)).2 = (probe_ports o rest).2 by
          simp [probe_ports, h1, h2]] at h
        obtain ⟨pre, hpre⟩ := probe_ports_winner_closed o rest p h
        exact ⟨ConnEv.newRtu q true :: ConnEv.connectTry q false ::
          ConnEv.freeCtx q :: pre, by simp [probe_ports, h1, h2, hpre]⟩
      · cases h3 : o.handshakeOk q
        · rw [show (probe_ports o (q :: rest)).2 = (probe_ports o rest).2 by
            simp [probe_ports, h1, h2, h3]] at h
          obtain ⟨pre, hpre⟩ := probe_ports_winner_closed o rest p h
          exact ⟨ConnEv.newRtu q true :: ConnEv.connectTry q true ::
            ConnEv.handshake q false :: ConnEv.closeConn q ::
            ConnEv.freeCtx q :: pre, by simp [probe_ports, h1, h2, h3, hpre]⟩
        · have hq : q = p := by
            have := h
            simp [probe_ports, h1, h2, h3] at this
            exact this
          subst hq
          exact ⟨[ConnEv.newRtu q true, ConnEv.connectTry q true,
            ConnEv.handshake q true], by simp [probe_ports, h1, h2, h3]⟩

/-- C5 counterexample: the scan order is not block-by-block over the
naming schemes.  Position 22 of the actual candidate list is
`/dev/ttyACM0`, where the block order would put `/dev/ttyUSB1`; under
an oracle where exactly `/dev/ttyUSB1` and `/dev/ttyACM0` respond, the
code returns `/dev/ttyACM0` while the claimed order would return
`/dev/ttyUSB1`. -/
theorem find_sensor_port_scan_order_counterexample :
    port_candidates ≠ claimed_scan_order
    ∧ port_candidates.get? 22 = some "/dev/ttyACM0"
    ∧ claimed_scan_order.get? 22 = some "/dev/ttyUSB1"
    ∧ find_sensor_port usb1_acm0_oracle = some "/dev/ttyACM0"
    ∧ claimed_scan_order.find?
        (fun p => usb1_acm0_oracle.newRtuOk p && usb1_acm0_oracle.connectOk p
          && usb1_acm0_oracle.handshakeOk p) = some "/dev/ttyUSB1" := by
  refine ⟨by decide, by decide, by decide, by decide, by decide⟩

/-- C5 (amended): `find_sensor_port` probes `/dev/ttyS0`…`/dev/ttyS20`
first and then the USB/ACM schemes interleaved per index
(`/dev/ttyUSB0`, `/dev/ttyACM0`, `/dev/ttyUSB1`, …), and returns the
first candidate whose context creation, connect, and handshake read all
succeed — the value read is never inspected — stopping the scan there. -/
theorem find_sensor_port_first_match (o : ProbeOracle) :
    find_sensor_port o
      = port_candidates.find?
          (fun p => o.newRtuOk p && o.connectOk p && o.handshakeOk p)
    ∧ port_candidates.length = 31
    ∧ port_candidates.get? 0 = some "/dev/ttyS0"
    ∧ port_candidates.get? 20 = some "/dev/ttyS20"
    ∧ port_candidates.get? 21 = some "/dev/ttyUSB0"
    ∧ port_candidates.get? 22 = some "/dev/ttyACM0"
    ∧ port_candidates.get? 23 = some "/dev/ttyUSB1" :=
  ⟨probe_ports_snd_eq_find o port_candidates, by decide, by decide,
    by decide, by decide, by decide, by decide⟩

/-- Helper: `openWithin` splits over list append. -/
theorem openWithin_append (xs : List ConnEv) :
    ∀ (c : Int) (ys : List ConnEv),
      openWithin c (xs ++ ys)
        = (openWithin c xs && openWithin (c + traceOpenSum xs) ys) := by
  induction xs with
  | nil => intro c ys; simp [openWithin, traceOpenSum]
  | cons e xs ih =>
      intro c ys
      simp [openWithin, traceOpenSum, ih, add_assoc, Bool.and_assoc]

/-- C8: at most one connection is open at any instant.  Every prefix of
the whole `main` connection trace has a running open count in `[0, 1]`;
the discovery part leaves zero connections open, contains no
session-connect event (the session is opened only in the suffix
appended after discovery returns), and when a probe wins, its
connection is closed (and freed) before `find_sensor_port` returns. -/
theorem connection_discipline (o : ProbeOracle) (b1 b2 : Bool) :
    openWithin 0 (main_session_trace o b1 b2) = true
    ∧ traceOpenSum (probe_ports o port_candidates).1 = 0
    ∧ (∃ rest, main_session_trace o b1 b2
        = (probe_ports o port_candidates).1 ++ rest)
    ∧ (∀ p ok, ConnEv.sessionConnect p ok ∉ (probe_ports o port_candidates).1)
    ∧ (∀ p, (probe_ports o port_candidates).2 = some p →
        ∃ pre, (probe_ports o port_candidates).1
          = pre ++ [ConnEv.closeConn p, ConnEv.freeCtx p]) := by
  refine ⟨?_, probe_ports_openSum o port_candidates, ?_,
    fun p ok => probe_ports_no_session o port_candidates p ok,
    fun p h => probe_ports_winner_closed o port_candidates p h⟩
  · cases hr : (probe_ports o port_candidates).2 with
    | none =>
        rw [show main_session_trace o b1 b2
            = (probe_ports o port_candidates).1 by
          unfold main_session_trace; rw [hr]]
        exact probe_ports_openWithin o port_candidates
    | some p =>
        cases b1
        · rw [show main_session_trace o false b2
              = (probe_ports o port_candidates).1
                ++ [ConnEv.sessionNew p false] by
            unfold main_session_trace; rw [hr]]
          rw [openWithin_append]
          simp [probe_ports_openWithin o port_candidates,
            probe_ports_openSum o port_candidates, openWithin, connDelta]
        · rw [show main_session_trace o true b2
              = (probe_ports o port_candidates).1
                ++ [ConnEv.sessionNew p true, ConnEv.sessionConnect p b2] by
            unfold main_session_trace; rw [hr]]
          rw [openWithin_append]
          simp only [probe_ports_openWithin o port_candidates,
            probe_ports_openSum o port_candidates, Bool.true_and]
          cases b2 <;> simp [connDelta, openWithin]
  · cases hr : (probe_ports o port_candidates).2 with
    | none =>
        exact ⟨[], by unfold main_session_trace; rw [hr]; simp⟩
    | some p =>
        cases b1
        · exact ⟨[ConnEv.sessionNew p false], by
            unfold main_session_trace; rw [hr]⟩
        · exact ⟨[ConnEv.sessionNew p true, ConnEv.sessionConnect p b2], by
            unfold main_session_trace; rw [hr]⟩

/-- Witness for C8 on the all-responding oracle (winning candidate
`/dev/ttyS0`). -/
theorem connection_discipline_witness :
    openWithin 0 (main_session_trace all_ok_oracle true true) = true
    ∧ (∃ pre, (probe_ports all_ok_oracle port_candidates).1
        = pre ++ [ConnEv.closeConn "/dev/ttyS0",
            ConnEv.freeCtx "/dev/ttyS0"]) :=
  ⟨(connection_discipline all_ok_oracle true true).1,
    (connection_discipline all_ok_oracle true true).2.2.2.2 "/dev/ttyS0"
      (by decide)⟩

/-! ### Theorems: sampling loop -/

/-- Helper: a cycle with a failed read emits nothing and continues. -/
theorem sampling_cycle_skip (r : CycleReads) (h : cycleAllOk r = false) :
    sampling_cycle r = LoopExit.nextCycle none := by
  cases r with
  | mk t e s =>
      cases t <;> cases e <;> cases s <;>
        simp_all [sampling_cycle, cycleAllOk]

/-- Helper: a fully successful cycle emits its record. -/
theorem sampling_cycle_emit (r : CycleReads) (h : cycleAllOk r = true) :
    ∃ rec, sampling_cycle r = LoopExit.nextCycle (some rec) := by
  cases r with
  | mk t e s =>
      cases t <;> cases e <;> cases s <;>
        simp_all [sampling_cycle, cycleAllOk]

/-- C7: the loop body never terminates the loop (no path of the body
leaves it — every read failure path ends in sleep-and-continue); a
cycle emits a record exactly when all three reads (temperature, raw EC,
sensor EC) succeed; and over any `n` cycles the records emitted are
exactly one per fully successful cycle — failed cycles contribute no
CSV row and no display record. -/
theorem sampling_loop_all_or_nothing :
    (∀ (r : CycleReads) (c : Int), sampling_cycle r ≠ LoopExit.terminate c)
    ∧ (∀ r : CycleReads,
        (∃ rec, sampling_cycle r = LoopExit.nextCycle (some rec))
          ↔ cycleAllOk r = true)
    ∧ (∀ (reads : Nat → CycleReads) (n : Nat),
        (run_sampling reads n).length
          = ((List.range n).filter (fun i => cycleAllOk (reads i))).length) := by
  refine ⟨?_, ?_, ?_⟩
  · intro r c
    cases r with
    | mk t e s => cases t <;> cases e <;> cases s <;> simp [sampling_cycle]
  · intro r
    constructor
    · rintro ⟨rec, hrec⟩
      by_contra hno
      have hf : cycleAllOk r = false := by
        cases hcy : cycleAllOk r
        · rfl
        · exact absurd hcy hno
      rw [sampling_cycle_skip r hf] at hrec
      simp at hrec
    · exact sampling_cycle_emit r
  · intro reads n
    induction n with
    | zero => rfl
    | succ n ih =>
        rw [show run_sampling reads (n + 1)
            = run_sampling reads n ++
              (match sampling_cycle (reads n) with
                | .nextCycle (some rec) => [rec]
                | .nextCycle none => []
                | .terminate _ => []) from rfl]
        rw [List.range_succ, List.filter_append, List.length_append,
          List.length_append, ih]
        cases hok : cycleAllOk (reads n)
        · rw [sampling_cycle_skip (reads n) hok]
          simp [hok]
        · obtain ⟨rec, hrec⟩ := sampling_cycle_emit (reads n) hok
          rw [hrec]
          simp [hok]

/-- Witness for C7: a cycle with all reads succeeding emits; a cycle
with a failed temperature read does not terminate the loop. -/
theorem sampling_loop_all_or_nothing_witness :
    (∃ rec, sampling_cycle ⟨some (1, 2), some (3, 4), some (5, 6)⟩
      = LoopExit.nextCycle (some rec))
    ∧ sampling_cycle ⟨none, some (3, 4), some (5, 6)⟩
        ≠ LoopExit.terminate 0 :=
  ⟨(sampling_loop_all_or_nothing.2.1 ⟨some (1, 2), some (3, 4), some (5, 6)⟩).mpr
      (by decide),
    sampling_loop_all_or_nothing.1 ⟨none, some (3, 4), some (5, 6)⟩ 0⟩

end SmartLogger
